import Mathlib

/-!
Verification development for the CERES-SARB-GEOSIT-LFL aerosol optical-depth
pipeline.  The definitions below are a shallow embedding of the numerical
core of `species_optics.py` (per-species optical-depth converter and
vertical/horizontal sub-sampler) and `external_mix.py` (external-mixture
aggregator).  Machine floats are modelled by exact rationals; 3-D gridded
fields (level, latitude, longitude) are modelled as total functions
`Nat -> Nat -> Nat -> Rat`, with the shape bookkeeping of the arrays noted in
comments where it matters.
-/

/-- A 3-D gridded field indexed by (level, latitude, longitude). -/
def Field3 : Type := Nat → Nat → Nat → ℚ

/-- `species_optics.py` line 26: `g_earth = 9.8`. -/
def g_earth : ℚ := 9.8

/-- `species_optics.py` line 134 / `external_mix.py` line 40:
`tau_thresh = 0.00001`. -/
def tau_thresh : ℚ := 0.00001

/-- Python membership test `pat in s` on character sequences:
`startsWithSeq pat l` is true when `pat` is an initial segment of `l`. -/
def startsWithSeq : List Char → List Char → Bool
  | [], _ => true
  | _ :: _, [] => false
  | a :: as, b :: bs => a == b && startsWithSeq as bs

/-- Python substring test `pat in s` (true when `pat` occurs contiguously
inside `l`). -/
def containsSeq (pat : List Char) : List Char → Bool
  | [] => startsWithSeq pat []
  | c :: rest => startsWithSeq pat (c :: rest) || containsSeq pat rest

/-- `species_optics.py` lines 143-148: map one relative-humidity value to the
integer humidity-bin index.  Species whose name contains `'PHO'` use bin 0
unconditionally; otherwise the bin is `floor(rh*100)` (cast to integer) with
only the upper clamp `idx_rh[idx_rh > 99] = 99` applied. -/
def idx_rh_of (species : List Char) (rh : ℚ) : ℤ :=
  if containsSeq ['P', 'H', 'O'] species then 0
  else min (Int.floor (rh * 100)) 99

/-- NumPy indexing of an axis of length `n` with a (possibly negative) integer
index: in-range indices select directly, negative indices in `[-n, 0)` select
from the end, anything else is an IndexError (`none`). -/
def npGet (n : ℕ) (t : ℕ → ℚ) (i : ℤ) : Option ℚ :=
  if 0 ≤ i ∧ i < (n : ℤ) then some (t i.toNat)
  else if -(n : ℤ) ≤ i ∧ i < 0 then some (t (i + (n : ℤ)).toNat)
  else none

/-- The interpolated optics lookup table (`ds_optics` after `rh_interp`):
three coefficient tables indexed by (radius bin, humidity bin, wavelength).
`rh_interp` resamples onto `np.arange(0, 1, 0.01)`, so the humidity axis has
length 100. -/
structure OpticsTable where
  ext : ℕ → ℕ → ℕ → ℚ
  sca : ℕ → ℕ → ℕ → ℚ
  asm : ℕ → ℕ → ℕ → ℚ

/-- Length of the resampled humidity axis (`rh_fine = np.arange(0, 1, 0.01)`
in `rh_interp`). -/
def nrh : ℕ := 100

/-- `species_optics.py` lines 154-156: per-cell gather
`ds_optics['ext'].values[idx_size, idx_rh, idx_wvl]` along the humidity axis
(the humidity index comes from the flattened field and may be negative). -/
def k_coef (tab : ℕ → ℕ → ℕ → ℚ) (idx_size : ℕ) (idxr : ℤ) (idx_wvl : ℕ) :
    Option ℚ :=
  npGet nrh (fun r => tab idx_size r idx_wvl) idxr

/-- `species_optics.py` lines 158-159: layer optical depth
`tau = delp * q_species * k / g_earth`. -/
def tau_layer (delp q k : ℚ) : ℚ := delp * q * k / g_earth

/-- Per-cell layer extinction optical depth (lines 154 and 158). -/
def tau_ext_cell (opt : OpticsTable) (species : List Char)
    (idx_size idx_wvl : ℕ) (delp q rh : ℚ) : Option ℚ :=
  (k_coef opt.ext idx_size (idx_rh_of species rh) idx_wvl).map
    (tau_layer delp q)

/-- Per-cell layer scattering optical depth (lines 155 and 159). -/
def tau_sca_cell (opt : OpticsTable) (species : List Char)
    (idx_size idx_wvl : ℕ) (delp q rh : ℚ) : Option ℚ :=
  (k_coef opt.sca idx_size (idx_rh_of species rh) idx_wvl).map
    (tau_layer delp q)

/-- Field-level layer extinction optical depth on the native grid. -/
def tau_ext_field (opt : OpticsTable) (species : List Char)
    (idx_size idx_wvl : ℕ) (delp q rh : Field3) :
    ℕ → ℕ → ℕ → Option ℚ :=
  fun l j k =>
    tau_ext_cell opt species idx_size idx_wvl (delp l j k) (q l j k) (rh l j k)

/-- `species_optics.py` line 174: `da_tau_ext.sum(dim='lev')`, the column
extinction optical depth as the vertical sum of the layer values (an
IndexError in any contributing cell propagates). -/
def tau_ext_column (nlev : ℕ) (opt : OpticsTable) (species : List Char)
    (idx_size idx_wvl : ℕ) (delp q rh : Field3) (j k : ℕ) : Option ℚ :=
  ((List.range nlev).mapM
    (fun l => tau_ext_field opt species idx_size idx_wvl delp q rh l j k)).map
    (fun vals => vals.sum)

/-!
### Sub-sampler (`species_optics.py` lines 180-212)

The arrays have dims (lev, lat, lon).  `0.5 * (a[:, :-1, :] + a[:, 1:, :])`
averages latitudinally adjacent cells (axis 1), producing `nlat - 1`
mid-latitude rows, mirroring the coordinate computation
`lat_mid = 0.5 * (lat[:-1] + lat[1:])`.  For output level `ilev` the code sums
native levels `3*ilev .. 3*ilev+2` of the even-indexed (`:-1:2`) and the
odd-indexed (`1::2`) mid-latitude rows at even longitudes (`::2`) and averages
the two with weight one half.  The index formulas below give the value of the
output cell (i, j, k): even row `2*j`, odd row `2*j+1`, longitude `2*k`.
-/

/-- Latitudinal mid-point field: `0.5 * (v[:, :-1, :] + v[:, 1:, :])`. -/
def mid_lat (v : Field3) : Field3 :=
  fun l j k => (v l j k + v l (j + 1) k) / 2

/-- One output cell of the summed sub-sampled field (`delp_sub`,
`tau_ext_sub`, `tau_sca_sub`): sum of three consecutive native levels of the
mid-latitude field, even and odd rows averaged with half weight, at even
longitudes. -/
def sub_sum (v : Field3) : Field3 :=
  fun i j k =>
    ((mid_lat v (3 * i) (2 * j) (2 * k)
      + mid_lat v (3 * i + 1) (2 * j) (2 * k)
      + mid_lat v (3 * i + 2) (2 * j) (2 * k))
     + (mid_lat v (3 * i) (2 * j + 1) (2 * k)
      + mid_lat v (3 * i + 1) (2 * j + 1) (2 * k)
      + mid_lat v (3 * i + 2) (2 * j + 1) (2 * k))) / 2

/-- One output cell of the averaged sub-sampled field (`asm_sub`): as
`sub_sum` but with `.mean(axis=0)` (sum of the three levels divided by 3) in
place of `.sum(axis=0)`. -/
def sub_mean (v : Field3) : Field3 :=
  fun i j k =>
    ((mid_lat v (3 * i) (2 * j) (2 * k)
      + mid_lat v (3 * i + 1) (2 * j) (2 * k)
      + mid_lat v (3 * i + 2) (2 * j) (2 * k)) / 3
     + (mid_lat v (3 * i) (2 * j + 1) (2 * k)
      + mid_lat v (3 * i + 1) (2 * j + 1) (2 * k)
      + mid_lat v (3 * i + 2) (2 * j + 1) (2 * k)) / 3) / 2

/-- `np.clip(x, lo, hi) = min(max(x, lo), hi)`. -/
def npClip (lo hi x : ℚ) : ℚ := min (max x lo) hi

/-- Line 210: `tau_ext_sub = np.clip(tau_ext_sub, 0, 10)`. -/
def clip_ext (e : ℚ) : ℚ := npClip 0 10 e

/-- Line 211: `tau_sca_sub = np.clip(tau_sca_sub, 0, tau_ext_sub)` — the
upper bound is the already-clipped extinction. -/
def clip_sca (e s : ℚ) : ℚ := npClip 0 (clip_ext e) s

/-- Line 212: `asm_sub = np.clip(asm_sub, -1, 1)`. -/
def clip_asm (a : ℚ) : ℚ := npClip (-1) 1 a

/-!
### External-mixture aggregator (`external_mix.py`)

A per-species output file (the subsampled dataset written by
`species_optics.py` lines 265-282, which is what the aggregator reads) is
modelled by the `Dataset` structure: its variables, coordinates and
attributes. -/

/-- The on-disk dataset written per species and read by the aggregator. -/
structure Dataset where
  DELP : Field3
  Extinction_Layer_Optical_Depth : Field3
  Scattering_Layer_Optical_Depth : Field3
  Layer_Asymmetry_Parameter : Field3
  Extinction_Column_Optical_Depth : ℕ → ℕ → ℚ
  lat : ℕ → ℚ
  lon : ℕ → ℚ
  datetime : String
  input_filename : String
  processing_datetime : String
  Langley_Fu_Liou_band : String
  band_wvl_min_micron : ℚ
  band_wvl_max_micron : ℚ
  script_version : String

/-- `external_mix.py` lines 21-26. -/
def SPECIES_NO_BIN : List String :=
  ["SO4", "OCPHOBIC", "OCPHILIC", "BCPHOBIC", "BCPHILIC", "NO3AN1"]

/-- `external_mix.py` lines 24-25: `SS001`..`SS005` and `DU001`..`DU005`. -/
def SPECIES_WITH_BIN : List String :=
  ["SS001", "SS002", "SS003", "SS004", "SS005",
   "DU001", "DU002", "DU003", "DU004", "DU005"]

/-- `external_mix.py` line 26. -/
def ALL_SPECIES : List String := SPECIES_NO_BIN ++ SPECIES_WITH_BIN

/-- `external_mix.py` lines 28-35, applied as
`SPECIES_ALIAS.get(species, species)`. -/
def SPECIES_ALIAS (s : String) : String :=
  if s = "SU" then "SO4"
  else if s = "OCPHO" then "OCPHOBIC"
  else if s = "OCPHI" then "OCPHILIC"
  else if s = "BCPHO" then "BCPHOBIC"
  else if s = "BCPHI" then "BCPHILIC"
  else if s = "NI" then "NO3AN1"
  else s

/-- Python `s.replace(pat, repl)` (all occurrences, left to right). -/
def strReplace (s pat repl : String) : String :=
  String.intercalate repl (s.splitOn pat)

/-- `'_AER_' in m`: drop pre-existing aggregate files (lines 53 and 58). -/
def hasAER (m : String) : Bool :=
  containsSeq ("_AER_".toList) m.toList

/-- `external_mix.py` lines 48-65: resolve the matched files for a single
species.  The filesystem is abstracted by `prim` and `legacy`, the (sorted)
`glob` results on the primary and legacy path patterns. -/
def resolveSpeciesFiles (prim legacy : String → List String)
    (pattern species : String) : List String :=
  let species_actual := SPECIES_ALIAS species
  let species_pattern := strReplace pattern "*_" (species_actual ++ "_")
  let matched := (prim species_pattern).filter (fun m => !hasAER m)
  if matched = [] then
    let legacy_pattern := strReplace species_pattern "GEOSIT/" "GEOSIT_alpha_4/"
    (legacy legacy_pattern).filter (fun m => !hasAER m)
  else matched

/-- The full resolved file list for one (pattern, timestamp) unit: the
per-species matches concatenated in species order (`files.extend(matched)`). -/
def resolveFiles (prim legacy : String → List String)
    (pattern : String) (species_list : List String) : List String :=
  (species_list.map (resolveSpeciesFiles prim legacy pattern)).flatten

/-- Python `str(files)` for a list of strings. -/
def pyListRepr (files : List String) : String :=
  let q := String.singleton (Char.ofNat 39)
  "[" ++ String.intercalate ", " (files.map (fun f => q ++ f ++ q)) ++ "]"

/-- `external_mix.py` lines 73-114: the accumulation and finalization loop.
`ds0` is `xr.open_dataset(files[0])`; `dss` are the opened datasets of every
matched file (the first one included, since the loop runs over all of
`files`).  The four optical fields are zeroed and then accumulated; the
asymmetry accumulator holds `sum_i sca_i * asm_i` and is finalized per cell to
0 where the accumulated scattering is `<= tau_thresh` and divided by the
accumulated scattering elsewhere.  Every other variable and attribute of
`ds0` is left untouched. -/
def externalMix (ds0 : Dataset) (dss : List Dataset)
    (filesStr utc ver : String) : Dataset :=
  let S : Field3 := fun i j k =>
    (dss.map (fun d => d.Scattering_Layer_Optical_Depth i j k)).sum
  let A : Field3 := fun i j k =>
    (dss.map (fun d => d.Scattering_Layer_Optical_Depth i j k
      * d.Layer_Asymmetry_Parameter i j k)).sum
  { ds0 with
    input_filename := filesStr
    processing_datetime := utc
    script_version := ver
    Extinction_Layer_Optical_Depth := fun i j k =>
      (dss.map (fun d => d.Extinction_Layer_Optical_Depth i j k)).sum
    Scattering_Layer_Optical_Depth := S
    Extinction_Column_Optical_Depth := fun j k =>
      (dss.map (fun d => d.Extinction_Column_Optical_Depth j k)).sum
    Layer_Asymmetry_Parameter := fun i j k =>
      if S i j k ≤ tau_thresh then 0 else A i j k / S i j k }

/-- `external_mix.py`, `process_file` (lines 38-117): resolve the file set;
if it is empty, return with no output (`none`) — no accumulator is created
and nothing is written; otherwise build the aggregate from the first matched
file's dataset and write it (`some`).  `open_` abstracts
`xr.open_dataset`; `utc` and `cwd` abstract the wall clock and
`os.getcwd()`. -/
def process_file_mix (prim legacy : String → List String)
    (open_ : String → Dataset) (pattern : String)
    (species_list : List String) (utc cwd : String) : Option Dataset :=
  match resolveFiles prim legacy pattern species_list with
  | [] => none
  | f0 :: rest =>
    some (externalMix (open_ f0) ((f0 :: rest).map open_)
      (pyListRepr (f0 :: rest)) utc (cwd ++ "/external_mix.py " ++ "v0.2"))

/-!
### Band selector (`species_optics.py` lines 356-374)
-/

/-- `np.argmin`: index of the first occurrence of the minimum value
(0 on an empty list, where NumPy would raise). -/
def npArgmin : List ℚ → ℕ
  | [] => 0
  | [_] => 0
  | x :: y :: ys =>
    let r := npArgmin (y :: ys)
    if x ≤ (y :: ys).getD r 0 then 0 else r + 1

/-- Value of a decimal digit character. -/
def digitVal (c : Char) : Option ℕ :=
  if '0' ≤ c ∧ c ≤ '9' then some (c.toNat - '0'.toNat) else none

/-- `int(band[2:4])`: the two characters after the category prefix read as a
decimal number (`none` models the `ValueError` on malformed labels). -/
def parse_band_idx (band : List Char) : Option ℕ :=
  match (band.drop 2).take 2 with
  | [a, b] =>
    (digitVal a).bind (fun da => (digitVal b).map (fun db => 10 * da + db))
  | _ => none

/-- `species_optics.py` lines 362-369: parse the band label and read the
upper/lower wavelength boundaries from the band-definition table.  The code
runs `if 'sw' in band` then `if 'lw' in band`, so a label containing both
markers ends with the long-wave bounds, and a label containing neither leaves
the bounds unbound (`none` models the NameError). -/
def band_bounds (band : List Char) (sw lw : List ℚ) : Option (ℚ × ℚ) :=
  (parse_band_idx band).bind (fun band_idx =>
    if containsSeq ['l', 'w'] band then
      some (lw.getD (band_idx - 1) 0, lw.getD band_idx 0)
    else if containsSeq ['s', 'w'] band then
      some (sw.getD (band_idx - 1) 0, sw.getD band_idx 0)
    else none)

/-- Lines 370-373: `wvl_band = 0.5 * (wvl_max + wvl_min)` and
`idx_wvl = np.argmin(np.abs(wvls - wvl_band))`. -/
def selected_wvl_idx (band : List Char) (sw lw wvls : List ℚ) : Option ℕ :=
  (band_bounds band sw lw).map (fun p =>
    npArgmin (wvls.map (fun w => |w - (p.2 + p.1) / 2|)))

/-- The `__main__` driver (lines 373-389): `idx_wvl` is computed once, before
the date loop, and the same index is passed to `process_file` for every date
in the run.  Each list entry records the (date, wavelength-index) pair of one
`process_file` call. -/
def main_run (band : List Char) (sw lw wvls : List ℚ)
    (dates : List String) : Option (List (String × ℕ)) :=
  (selected_wvl_idx band sw lw wvls).map (fun idx_wvl =>
    dates.map (fun date => (date, idx_wvl)))

/-!
### Auxiliary concrete inputs and the specification-worded sub-sampler
-/

/-- The sub-sampling algorithm as the specification words it, for comparison
with `sub_sum` (the code): "first average each vertically-adjacent pair of
native levels (mid-level values), then for each output level sum three
consecutive mid-level values, then average the even/odd-latitude-aligned
horizontal pairs (half weight each)".  Here the pairing step is on the level
axis, as the sentence says, with `mlev l = (v l + v (l+1)) / 2`. -/
def sub_sum_spec_vertical (v : Field3) : Field3 :=
  fun i j k =>
    let mlev : Field3 := fun l j2 k2 => (v l j2 k2 + v (l + 1) j2 k2) / 2
    ((mlev (3 * i) (2 * j) (2 * k) + mlev (3 * i + 1) (2 * j) (2 * k)
      + mlev (3 * i + 2) (2 * j) (2 * k))
     + (mlev (3 * i) (2 * j + 1) (2 * k) + mlev (3 * i + 1) (2 * j + 1) (2 * k)
      + mlev (3 * i + 2) (2 * j + 1) (2 * k))) / 2

/-- A horizontally uniform field concentrated on native level 0. -/
def v_delta : Field3 := fun l _ _ => if l = 0 then 1 else 0

/-- The field of the sub-sampling test scenario: every cell holds its native
level index. -/
def v_levels : Field3 := fun l _ _ => (l : ℚ)

/-- A spatially constant field. -/
def constF (c : ℚ) : Field3 := fun _ _ _ => c

/-- A dataset whose three layer optical fields are spatially constant
(used to instantiate aggregator scenarios). -/
def constDataset (e s a : ℚ) : Dataset where
  DELP := constF 0
  Extinction_Layer_Optical_Depth := constF e
  Scattering_Layer_Optical_Depth := constF s
  Layer_Asymmetry_Parameter := constF a
  Extinction_Column_Optical_Depth := fun _ _ => 0
  lat := fun _ => 0
  lon := fun _ => 0
  datetime := ""
  input_filename := ""
  processing_datetime := ""
  Langley_Fu_Liou_band := ""
  band_wvl_min_micron := 0
  band_wvl_max_micron := 0
  script_version := ""

/-!
### Helper lemmas
-/

lemma clip_ext_nonneg (e : ℚ) : 0 ≤ clip_ext e :=
  le_min (le_max_right _ _) (by norm_num)

lemma clip_ext_le_ten (e : ℚ) : clip_ext e ≤ 10 := min_le_right _ _

lemma clip_sca_nonneg (e s : ℚ) : 0 ≤ clip_sca e s :=
  le_min (le_max_right _ _) (clip_ext_nonneg e)

lemma clip_sca_le_clip_ext (e s : ℚ) : clip_sca e s ≤ clip_ext e :=
  min_le_right _ _

lemma clip_asm_bounds (a : ℚ) : -1 ≤ clip_asm a ∧ clip_asm a ≤ 1 :=
  ⟨le_min (le_max_right _ _) (by norm_num), min_le_right _ _⟩

lemma clip_sca_of_lt {e s : ℚ} (h : e < s) : clip_sca e s = clip_ext e := by
  simp only [clip_sca, clip_ext, npClip]
  rw [min_eq_right (le_trans (min_le_left _ _) (max_le_max h.le le_rfl))]

lemma idx_rh_range (sp : List Char) (rh : ℚ) (h : 0 ≤ rh) :
    0 ≤ idx_rh_of sp rh ∧ idx_rh_of sp rh ≤ 99 := by
  unfold idx_rh_of
  split
  · exact ⟨le_rfl, by norm_num⟩
  · exact ⟨le_min (Int.floor_nonneg.2 (by positivity)) (by norm_num),
      min_le_right _ _⟩

lemma idx_rh_SO4_half : idx_rh_of ("SO4".toList) (1 / 2) = 50 := by
  have h : containsSeq ['P', 'H', 'O'] ['S', 'O', '4'] = false := by decide
  simp [idx_rh_of, h]
  norm_num

lemma npGet_inbounds (n : ℕ) (t : ℕ → ℚ) (i : ℤ) (h0 : 0 ≤ i)
    (h1 : i < (n : ℤ)) : npGet n t i = some (t i.toNat) := by
  simp [npGet, h0, h1]

lemma k_coef_inbounds (tab : ℕ → ℕ → ℕ → ℚ) (idx_size idx_wvl : ℕ) (i : ℤ)
    (h0 : 0 ≤ i) (h1 : i ≤ 99) :
    k_coef tab idx_size i idx_wvl = some (tab idx_size i.toNat idx_wvl) := by
  unfold k_coef nrh
  exact npGet_inbounds _ _ _ h0 (by omega)

/-!
### Claims
-/

/-- C1: for every cell of the subsampled output, after the clipping step
(`species_optics.py` lines 210-212) the extinction layer optical depth lies
in [0,10], the scattering layer optical depth lies in [0, extinction], the
asymmetry parameter lies in [-1,1], and whenever the pre-clip scattering
exceeds the pre-clip extinction the post-clip scattering equals the post-clip
extinction. -/
theorem clipping_invariant_c1 (eN sN aN : Field3) (i j k : ℕ) :
    0 ≤ clip_ext (sub_sum eN i j k)
    ∧ clip_ext (sub_sum eN i j k) ≤ 10
    ∧ 0 ≤ clip_sca (sub_sum eN i j k) (sub_sum sN i j k)
    ∧ clip_sca (sub_sum eN i j k) (sub_sum sN i j k)
        ≤ clip_ext (sub_sum eN i j k)
    ∧ -1 ≤ clip_asm (sub_mean aN i j k)
    ∧ clip_asm (sub_mean aN i j k) ≤ 1
    ∧ (sub_sum eN i j k < sub_sum sN i j k →
        clip_sca (sub_sum eN i j k) (sub_sum sN i j k)
          = clip_ext (sub_sum eN i j k)) :=
  ⟨clip_ext_nonneg _, clip_ext_le_ten _, clip_sca_nonneg _ _,
    clip_sca_le_clip_ext _ _, (clip_asm_bounds _).1, (clip_asm_bounds _).2,
    fun h => clip_sca_of_lt h⟩

/-- Witness for C1 at a concrete input where the pre-clip scattering (6)
exceeds the pre-clip extinction (3). -/
theorem clipping_invariant_c1_witness :
    sub_sum (constF 1) 0 0 0 < sub_sum (constF 2) 0 0 0
    ∧ clip_sca (sub_sum (constF 1) 0 0 0) (sub_sum (constF 2) 0 0 0)
        = clip_ext (sub_sum (constF 1) 0 0 0) :=
  ⟨by norm_num [sub_sum, mid_lat, constF],
    (clipping_invariant_c1 (constF 1) (constF 2) (constF 0) 0 0 0).2.2.2.2.2.2
      (by norm_num [sub_sum, mid_lat, constF])⟩

/-- C4 counterexample: the claim says the sub-sampler first averages each
vertically-adjacent pair of native LEVELS into mid-level values.  The code
(`species_optics.py` lines 180-208) instead pairs adjacent LATITUDES.  On a
horizontally uniform field concentrated on native level 0 the code's output
cell (0,0,0) is 1, while the claimed algorithm yields 1/2, so the claim as
stated is false. -/
theorem subsampler_c4_counterexample :
    sub_sum v_delta 0 0 0 = 1
    ∧ sub_sum_spec_vertical v_delta 0 0 0 = 1 / 2
    ∧ sub_sum v_delta 0 0 0 ≠ sub_sum_spec_vertical v_delta 0 0 0 := by
  refine ⟨?_, ?_, ?_⟩ <;>
    norm_num [sub_sum, sub_sum_spec_vertical, mid_lat, v_delta]

/-- C4 amended: the sub-sampler first averages each pair of latitudinally
adjacent native cells into mid-latitude values, then for each output level
sums three consecutive native levels of those mid values, then averages the
even- and odd-indexed mid-latitude rows with half weight each, taking only
even-indexed longitude columns; equivalently each output cell is the sum over
its three native levels of the 1/4, 1/2, 1/4-weighted combination of native
latitude rows 2j, 2j+1, 2j+2 at longitude 2k.  The asymmetry parameter is
averaged (the three-level sum divided by 3) instead of summed. -/
theorem subsampler_c4_amended (v : Field3) (i j k : ℕ) :
    sub_sum v i j k
      = (v (3 * i) (2 * j) (2 * k) + 2 * v (3 * i) (2 * j + 1) (2 * k)
         + v (3 * i) (2 * j + 2) (2 * k)
         + v (3 * i + 1) (2 * j) (2 * k) + 2 * v (3 * i + 1) (2 * j + 1) (2 * k)
         + v (3 * i + 1) (2 * j + 2) (2 * k)
         + v (3 * i + 2) (2 * j) (2 * k) + 2 * v (3 * i + 2) (2 * j + 1) (2 * k)
         + v (3 * i + 2) (2 * j + 2) (2 * k)) / 4
    ∧ sub_mean v i j k = sub_sum v i j k / 3 := by
  constructor <;> · simp only [sub_sum, sub_mean, mid_lat]; ring_nf

/-- C5 counterexample: on the 6-level grid whose extinction value at every
cell is its native level index, the sub-sampled output at level 0 is 3 (the
SUM of levels 0, 1, 2), not the mean (0+1+2)/3 = 1 claimed. -/
theorem subsample_c5_counterexample :
    clip_ext (sub_sum v_levels 0 0 0) = 3
    ∧ ((0 : ℚ) + 1 + 2) / 3 = 1
    ∧ clip_ext (sub_sum v_levels 0 0 0) ≠ ((0 : ℚ) + 1 + 2) / 3 := by
  refine ⟨?_, by norm_num, ?_⟩ <;>
    norm_num [clip_ext, npClip, sub_sum, mid_lat, v_levels]

/-- C5 amended: on the 6-level grid whose extinction value at every cell is
its native level index, each of the 2 output levels of the sub-sampled
extinction field equals the SUM of its 3 contributing native levels, clipped
to [0,10]: level 0 gives 0+1+2 = 3 and level 1 gives
min(3+4+5, 10) = 10. -/
theorem subsample_c5_amended (j k : ℕ) :
    clip_ext (sub_sum v_levels 0 j k) = npClip 0 10 ((0 : ℚ) + 1 + 2)
    ∧ clip_ext (sub_sum v_levels 0 j k) = 3
    ∧ clip_ext (sub_sum v_levels 1 j k) = npClip 0 10 ((3 : ℚ) + 4 + 5)
    ∧ clip_ext (sub_sum v_levels 1 j k) = 10 := by
  refine ⟨?_, ?_, ?_, ?_⟩ <;>
    norm_num [clip_ext, npClip, sub_sum, mid_lat, v_levels]

/-- C2: for every cell, the layer extinction (resp. scattering) optical depth
equals `pressure_thickness * mixing_ratio * efficiency / g` with `g = 9.8`
(`species_optics.py` lines 154-159); and in the scenario of a single-level
input with uniform mixing ratio 1e-6, pressure thickness 1000 and relative
humidity 0.5, the layer extinction optical depth is uniformly
`1000 * 1e-6 * k_ext(bin 50) / 9.8` and the column extinction optical depth
equals the layer value. -/
theorem tau_formula_c2 (opt : OpticsTable) (sp : List Char)
    (idx_size idx_wvl : ℕ) (delp q rh : ℚ) (h : 0 ≤ rh) :
    tau_ext_cell opt sp idx_size idx_wvl delp q rh
      = some (delp * q * opt.ext idx_size (idx_rh_of sp rh).toNat idx_wvl
          / g_earth)
    ∧ tau_sca_cell opt sp idx_size idx_wvl delp q rh
      = some (delp * q * opt.sca idx_size (idx_rh_of sp rh).toNat idx_wvl
          / g_earth)
    ∧ tau_ext_cell opt ("SO4".toList) 0 idx_wvl 1000 (1 / 1000000) (1 / 2)
      = some (1000 * (1 / 1000000) * opt.ext 0 50 idx_wvl / g_earth)
    ∧ (∀ j2 k2 : ℕ,
        tau_ext_column 1 opt ("SO4".toList) 0 idx_wvl (constF 1000)
          (constF (1 / 1000000)) (constF (1 / 2)) j2 k2
        = some (1000 * (1 / 1000000) * opt.ext 0 50 idx_wvl / g_earth)) := by
  obtain ⟨h0, h1⟩ := idx_rh_range sp rh h
  have hcell :
      tau_ext_cell opt ("SO4".toList) 0 idx_wvl 1000 (1 / 1000000) (1 / 2)
        = some (1000 * (1 / 1000000) * opt.ext 0 50 idx_wvl / g_earth) := by
    rw [tau_ext_cell, idx_rh_SO4_half,
      k_coef_inbounds opt.ext 0 idx_wvl 50 (by norm_num) (by norm_num)]
    simp [tau_layer]
  refine ⟨?_, ?_, hcell, ?_⟩
  · rw [tau_ext_cell, k_coef_inbounds opt.ext idx_size idx_wvl _ h0 h1]
    simp [tau_layer]
  · rw [tau_sca_cell, k_coef_inbounds opt.sca idx_size idx_wvl _ h0 h1]
    simp [tau_layer]
  · intro j2 k2
    rw [tau_ext_column]
    simp only [show List.range 1 = [0] from rfl, List.mapM_cons,
      List.mapM_nil]
    simp only [tau_ext_field, constF]
    rw [hcell]
    simp

/-- Witness for C2 at a fully concrete input (constant optics table equal to
2 everywhere, wavelength index 0). -/
theorem tau_formula_c2_witness :
    tau_ext_cell ⟨fun _ _ _ => 2, fun _ _ _ => 2, fun _ _ _ => 2⟩
        ("SO4".toList) 0 0 1000 (1 / 1000000) (1 / 2)
      = some (1000 * (1 / 1000000) * 2 / g_earth) :=
  (tau_formula_c2 ⟨fun _ _ _ => 2, fun _ _ _ => 2, fun _ _ _ => 2⟩
    ("SO4".toList) 0 0 1000 (1 / 1000000) (1 / 2) (by norm_num)).2.2.1

/-- C3: in the aggregator's finalization (`external_mix.py` lines 101-114),
for every cell the aggregate asymmetry parameter is exactly 0 when the
accumulated scattering is at most 1e-5 and otherwise equals the
scattering-weighted asymmetry accumulator divided by the accumulated
scattering; two species contributing (0.1, 0.05, 0.5) and (0.2, 0.1, 0.8)
uniformly yield aggregate extinction 0.3, scattering 0.15 and asymmetry 0.7
everywhere. -/
theorem external_mix_asymmetry_c3 (ds0 : Dataset) (dss : List Dataset)
    (fstr utc ver : String) (i j k : ℕ) :
    ((dss.map (fun d => d.Scattering_Layer_Optical_Depth i j k)).sum
        ≤ tau_thresh →
      (externalMix ds0 dss fstr utc ver).Layer_Asymmetry_Parameter i j k = 0)
    ∧ (tau_thresh
        < (dss.map (fun d => d.Scattering_Layer_Optical_Depth i j k)).sum →
      (externalMix ds0 dss fstr utc ver).Layer_Asymmetry_Parameter i j k
        = (dss.map (fun d => d.Scattering_Layer_Optical_Depth i j k
            * d.Layer_Asymmetry_Parameter i j k)).sum
          / (dss.map (fun d => d.Scattering_Layer_Optical_Depth i j k)).sum)
    ∧ ((externalMix (constDataset (1 / 10) (1 / 20) (1 / 2))
          [constDataset (1 / 10) (1 / 20) (1 / 2),
           constDataset (2 / 10) (1 / 10) (8 / 10)] fstr utc
          ver).Extinction_Layer_Optical_Depth i j k = 3 / 10
       ∧ (externalMix (constDataset (1 / 10) (1 / 20) (1 / 2))
          [constDataset (1 / 10) (1 / 20) (1 / 2),
           constDataset (2 / 10) (1 / 10) (8 / 10)] fstr utc
          ver).Scattering_Layer_Optical_Depth i j k = 3 / 20
       ∧ (externalMix (constDataset (1 / 10) (1 / 20) (1 / 2))
          [constDataset (1 / 10) (1 / 20) (1 / 2),
           constDataset (2 / 10) (1 / 10) (8 / 10)] fstr utc
          ver).Layer_Asymmetry_Parameter i j k = 7 / 10) := by
  refine ⟨?_, ?_, ?_, ?_, ?_⟩
  · intro hS
    simp only [externalMix]
    rw [if_pos hS]
  · intro hS
    simp only [externalMix]
    rw [if_neg (not_le.2 hS)]
  · simp [externalMix, constDataset, constF]
    norm_num
  · simp [externalMix, constDataset, constF]
    norm_num
  · simp [externalMix, constDataset, constF, tau_thresh]
    norm_num

/-- Witness for C3: with no contributing species the accumulated scattering
is 0 ≤ 1e-5, so the finalized asymmetry is exactly 0. -/
theorem external_mix_asymmetry_c3_witness :
    (externalMix (constDataset 0 0 0) [] "" "" "").Layer_Asymmetry_Parameter
      0 0 0 = 0 :=
  (external_mix_asymmetry_c3 (constDataset 0 0 0) [] "" "" "" 0 0 0).1
    (by norm_num [tau_thresh])

/-- C6: the per-species converter maps each cell of the flattened
relative-humidity field to the integer humidity bin `floor(rh*100)` clamped
above to 99, which lies in [0, 99] for nonnegative relative humidity; any
species whose name contains the hydrophobic marker `'PHO'` uses bin 0
unconditionally (`species_optics.py` lines 143-148). -/
theorem humidity_bin_c6 (sp : List Char) (rh : ℚ) :
    (containsSeq ['P', 'H', 'O'] sp = true →
      ∀ rh2 : ℚ, idx_rh_of sp rh2 = 0)
    ∧ (containsSeq ['P', 'H', 'O'] sp = false →
      idx_rh_of sp rh = min (Int.floor (rh * 100)) 99)
    ∧ (0 ≤ rh → 0 ≤ idx_rh_of sp rh ∧ idx_rh_of sp rh ≤ 99) := by
  refine ⟨?_, ?_, fun h => idx_rh_range sp rh h⟩
  · intro hp rh2
    simp [idx_rh_of, hp]
  · intro hp
    simp [idx_rh_of, hp]

/-- Witness for C6: the hydrophobic species OCPHOBIC uses bin 0 at rh = 3/4,
and SO4 at rh = 1/2 gets the in-range bin `min(floor(50), 99)`. -/
theorem humidity_bin_c6_witness :
    idx_rh_of ("OCPHOBIC".toList) (3 / 4) = 0
    ∧ idx_rh_of ("SO4".toList) (1 / 2)
        = min (Int.floor ((1 / 2 : ℚ) * 100)) 99
    ∧ 0 ≤ idx_rh_of ("SO4".toList) (1 / 2)
    ∧ idx_rh_of ("SO4".toList) (1 / 2) ≤ 99 :=
  ⟨(humidity_bin_c6 ("OCPHOBIC".toList) 0).1 (by decide) (3 / 4),
   (humidity_bin_c6 ("SO4".toList) (1 / 2)).2.1 (by decide),
   ((humidity_bin_c6 ("SO4".toList) (1 / 2)).2.2 (by norm_num)).1,
   ((humidity_bin_c6 ("SO4".toList) (1 / 2)).2.2 (by norm_num)).2⟩

/-- C9: the humidity-bin clamp is one-sided.  For every cell with
nonnegative relative humidity the bin lies in [0, 99] and the optics-table
gather is in bounds; a cell with negative relative humidity (for example
rh = -1/200) yields a negative bin (-1), which NumPy's indexing resolves from
the END of the humidity axis (bin 99), rather than using bin 0 or failing. -/
theorem humidity_bin_negative_c9 (opt : OpticsTable) (sp : List Char)
    (idx_size idx_wvl : ℕ) (rh : ℚ) (h : 0 ≤ rh) :
    (0 ≤ idx_rh_of sp rh ∧ idx_rh_of sp rh ≤ 99
     ∧ k_coef opt.ext idx_size (idx_rh_of sp rh) idx_wvl
        = some (opt.ext idx_size (idx_rh_of sp rh).toNat idx_wvl))
    ∧ (idx_rh_of ("SO4".toList) (-(1 / 200)) = -1
       ∧ k_coef opt.ext idx_size (-1) idx_wvl
          = some (opt.ext idx_size 99 idx_wvl)) := by
  obtain ⟨h0, h1⟩ := idx_rh_range sp rh h
  refine ⟨⟨h0, h1, k_coef_inbounds opt.ext idx_size idx_wvl _ h0 h1⟩, ?_, ?_⟩
  · have hc : containsSeq ['P', 'H', 'O'] ['S', 'O', '4'] = false := by decide
    simp [idx_rh_of, hc]
    norm_num
  · rw [k_coef, nrh]
    norm_num [npGet]
    rfl

/-- Witness for C9 at rh = 1/2 with a constant optics table. -/
theorem humidity_bin_negative_c9_witness :
    (0 ≤ idx_rh_of ("SO4".toList) (1 / 2)
     ∧ idx_rh_of ("SO4".toList) (1 / 2) ≤ 99
     ∧ k_coef (fun _ _ _ => (7 : ℚ)) 0 (idx_rh_of ("SO4".toList) (1 / 2)) 0
        = some 7)
    ∧ (idx_rh_of ("SO4".toList) (-(1 / 200)) = -1
       ∧ k_coef (fun _ _ _ => (7 : ℚ)) 0 (-1) 0 = some 7) :=
  humidity_bin_negative_c9 ⟨fun _ _ _ => 7, fun _ _ _ => 7, fun _ _ _ => 7⟩
    ("SO4".toList) 0 0 (1 / 2) (by norm_num)

/-- C8: if the aggregator's resolved file set for one (pattern, timestamp)
unit is empty after both the primary and the legacy path lookups, the
aggregator returns without writing any output and without raising
(`external_mix.py` lines 67-69); in particular no accumulator dataset is
ever created for that unit (`none`, the skip return, carries no dataset). -/
theorem aggregator_skip_empty_c8 (prim legacy : String → List String)
    (open_ : String → Dataset) (pattern : String)
    (species_list : List String) (utc cwd : String)
    (h : resolveFiles prim legacy pattern species_list = []) :
    process_file_mix prim legacy open_ pattern species_list utc cwd
      = none := by
  rw [process_file_mix, h]

/-- Witness for C8: a filesystem on which both the primary and the legacy
glob return no matches. -/
theorem aggregator_skip_empty_c8_witness :
    process_file_mix (fun _ => []) (fun _ => []) (fun _ => constDataset 0 0 0)
      "GEOSIT/2010/01/x.*_SW01.nc4" ["SU", "DU001"] "now" "/work" = none :=
  aggregator_skip_empty_c8 (fun _ => []) (fun _ => [])
    (fun _ => constDataset 0 0 0) "GEOSIT/2010/01/x.*_SW01.nc4"
    ["SU", "DU001"] "now" "/work" (by decide)

/-- C10: in the aggregator's output, every variable and attribute other than
the four accumulated optical fields and the three provenance attributes
(`input_filename`, `processing_datetime`, `script_version`) is taken
unchanged from the first matched species file — in particular the DELP
pressure-thickness field, the coordinates, and the remaining attributes are
the first contributor's values (`external_mix.py` lines 73-83). -/
theorem aggregator_frame_c10 (prim legacy : String → List String)
    (open_ : String → Dataset) (pattern : String)
    (species_list : List String) (utc cwd : String) (f0 : String)
    (rest : List String)
    (h : resolveFiles prim legacy pattern species_list = f0 :: rest) :
    ∃ out,
      process_file_mix prim legacy open_ pattern species_list utc cwd
        = some out
      ∧ out.DELP = (open_ f0).DELP
      ∧ out.lat = (open_ f0).lat
      ∧ out.lon = (open_ f0).lon
      ∧ out.datetime = (open_ f0).datetime
      ∧ out.Langley_Fu_Liou_band = (open_ f0).Langley_Fu_Liou_band
      ∧ out.band_wvl_min_micron = (open_ f0).band_wvl_min_micron
      ∧ out.band_wvl_max_micron = (open_ f0).band_wvl_max_micron
      ∧ out.input_filename = pyListRepr (f0 :: rest)
      ∧ out.processing_datetime = utc
      ∧ out.script_version = cwd ++ "/external_mix.py " ++ "v0.2" := by
  refine ⟨externalMix (open_ f0) ((f0 :: rest).map open_)
    (pyListRepr (f0 :: rest)) utc (cwd ++ "/external_mix.py " ++ "v0.2"),
    ?_, ?_⟩
  · rw [process_file_mix, h]
  · simp [externalMix]

/-- Witness for C10 on a one-file filesystem. -/
theorem aggregator_frame_c10_witness :
    ∃ out,
      process_file_mix (fun _ => ["f"]) (fun _ => [])
        (fun _ => constDataset 1 1 1) "GEOSIT/2010/01/x.*_SW01.nc4" ["SU"]
        "now" "/work" = some out
      ∧ out.DELP = (constDataset 1 1 1).DELP
      ∧ out.lat = (constDataset 1 1 1).lat
      ∧ out.lon = (constDataset 1 1 1).lon
      ∧ out.datetime = (constDataset 1 1 1).datetime
      ∧ out.Langley_Fu_Liou_band = (constDataset 1 1 1).Langley_Fu_Liou_band
      ∧ out.band_wvl_min_micron = (constDataset 1 1 1).band_wvl_min_micron
      ∧ out.band_wvl_max_micron = (constDataset 1 1 1).band_wvl_max_micron
      ∧ out.input_filename = pyListRepr ["f"]
      ∧ out.processing_datetime = "now"
      ∧ out.script_version = "/work" ++ "/external_mix.py " ++ "v0.2" :=
  aggregator_frame_c10 (fun _ => ["f"]) (fun _ => [])
    (fun _ => constDataset 1 1 1) "GEOSIT/2010/01/x.*_SW01.nc4" ["SU"]
    "now" "/work" "f" [] (by decide)

/-- Correctness of `npArgmin` (NumPy `argmin`): on a nonempty list the result
is an in-range index of a minimal value, and every strictly earlier index
holds a strictly larger value (first-occurrence tie-breaking). -/
lemma npArgmin_spec (x : ℚ) (xs : List ℚ) :
    npArgmin (x :: xs) < (x :: xs).length
    ∧ (∀ j, j < (x :: xs).length →
        (x :: xs).getD (npArgmin (x :: xs)) 0 ≤ (x :: xs).getD j 0)
    ∧ (∀ j, j < npArgmin (x :: xs) →
        (x :: xs).getD (npArgmin (x :: xs)) 0 < (x :: xs).getD j 0) := by
  induction xs generalizing x with
  | nil =>
    refine ⟨by simp [npArgmin], ?_, ?_⟩
    · intro j hj
      have hj0 : j = 0 := by
        simp only [List.length_cons, List.length_nil] at hj
        omega
      subst hj0
      exact le_rfl
    · intro j hj
      rw [show npArgmin [x] = 0 from rfl] at hj
      exact absurd hj (Nat.not_lt_zero j)
  | cons y ys ih =>
    obtain ⟨ih1, ih2, ih3⟩ := ih y
    by_cases hx : x ≤ (y :: ys).getD (npArgmin (y :: ys)) 0
    · have hx2 : x ≤ (y :: ys)[npArgmin (y :: ys)]?.getD 0 := by
        rw [← List.getD_eq_getElem?_getD]
        exact hx
      have hv : npArgmin (x :: y :: ys) = 0 := by
        simp [npArgmin, hx2]
      rw [hv]
      refine ⟨by simp, ?_, fun j hj => absurd hj (Nat.not_lt_zero j)⟩
      intro j hj
      cases j with
      | zero => exact le_rfl
      | succ j2 =>
        rw [List.getD_cons_zero, List.getD_cons_succ]
        exact le_trans hx (ih2 j2 (Nat.lt_of_succ_lt_succ hj))
    · have hlt := not_le.1 hx
      have hx2 : ¬ x ≤ (y :: ys)[npArgmin (y :: ys)]?.getD 0 := by
        rw [← List.getD_eq_getElem?_getD]
        exact hx
      have hv : npArgmin (x :: y :: ys) = npArgmin (y :: ys) + 1 := by
        simp [npArgmin, hx2]
      rw [hv]
      refine ⟨Nat.succ_lt_succ ih1, ?_, ?_⟩
      · intro j hj
        rw [List.getD_cons_succ]
        cases j with
        | zero => rw [List.getD_cons_zero]; exact hlt.le
        | succ j2 =>
          rw [List.getD_cons_succ]
          exact ih2 j2 (Nat.lt_of_succ_lt_succ hj)
      · intro j hj
        rw [List.getD_cons_succ]
        cases j with
        | zero => rw [List.getD_cons_zero]; exact hlt
        | succ j2 =>
          rw [List.getD_cons_succ]
          exact ih3 j2 (Nat.lt_of_succ_lt_succ hj)

lemma getD_map_abs (l : List ℚ) (m : ℚ) (j : ℕ) (hj : j < l.length) :
    (l.map (fun w => |w - m|)).getD j 0 = |l.getD j 0 - m| := by
  induction l generalizing j with
  | nil => simp at hj
  | cons a as ih =>
    cases j with
    | zero => simp
    | succ j2 =>
      simp only [List.map_cons, List.getD_cons_succ]
      exact ih j2 (Nat.lt_of_succ_lt_succ (by simpa using hj))

/-- C7: the band selector parses the band label into a short-wave/long-wave
category and a 1-based index, reads the index's lower and upper wavelength
boundaries from the band-definition table (`band_bounds`), takes the
midpoint, and selects the single tabulated wavelength index minimizing the
absolute difference to that midpoint, ties broken by first occurrence in
table order; the driver (`main_run`) passes this one fixed index to every
per-date `process_file` call of the run. -/
theorem band_selector_c7 (band : List Char) (sw lw wvls : List ℚ)
    (dates : List String) (wvl_min wvl_max : ℚ)
    (hb : band_bounds band sw lw = some (wvl_min, wvl_max))
    (hw : wvls ≠ []) :
    ∃ i, selected_wvl_idx band sw lw wvls = some i
      ∧ i < wvls.length
      ∧ (∀ j, j < wvls.length →
          |wvls.getD i 0 - (wvl_max + wvl_min) / 2|
            ≤ |wvls.getD j 0 - (wvl_max + wvl_min) / 2|)
      ∧ (∀ j, j < i →
          |wvls.getD i 0 - (wvl_max + wvl_min) / 2|
            < |wvls.getD j 0 - (wvl_max + wvl_min) / 2|)
      ∧ main_run band sw lw wvls dates
          = some (dates.map (fun d => (d, i))) := by
  cases wvls with
  | nil => exact absurd rfl hw
  | cons w ws =>
    refine ⟨npArgmin ((w :: ws).map (fun w2 => |w2 - (wvl_max + wvl_min) / 2|)),
      ?_, ?_, ?_, ?_, ?_⟩
    · rw [selected_wvl_idx, hb]
      rfl
    · have h1 := (npArgmin_spec (|w - (wvl_max + wvl_min) / 2|)
        (ws.map (fun w2 => |w2 - (wvl_max + wvl_min) / 2|))).1
      simpa using h1
    · intro j hj
      have hlen : npArgmin ((w :: ws).map (fun w2 => |w2 - (wvl_max + wvl_min) / 2|))
          < (w :: ws).length := by
        have h1 := (npArgmin_spec (|w - (wvl_max + wvl_min) / 2|)
          (ws.map (fun w2 => |w2 - (wvl_max + wvl_min) / 2|))).1
        simpa using h1
      have h2 := (npArgmin_spec (|w - (wvl_max + wvl_min) / 2|)
        (ws.map (fun w2 => |w2 - (wvl_max + wvl_min) / 2|))).2.1 j
        (by simpa using hj)
      rw [show ((|w - (wvl_max + wvl_min) / 2|)
        :: ws.map (fun w2 => |w2 - (wvl_max + wvl_min) / 2|))
        = (w :: ws).map (fun w2 => |w2 - (wvl_max + wvl_min) / 2|) from rfl,
        getD_map_abs _ _ _ hlen, getD_map_abs _ _ _ hj] at h2
      exact h2
    · intro j hj
      have hlen : npArgmin ((w :: ws).map (fun w2 => |w2 - (wvl_max + wvl_min) / 2|))
          < (w :: ws).length := by
        have h1 := (npArgmin_spec (|w - (wvl_max + wvl_min) / 2|)
          (ws.map (fun w2 => |w2 - (wvl_max + wvl_min) / 2|))).1
        simpa using h1
      have hjlen : j < (w :: ws).length := lt_trans hj hlen
      have h3 := (npArgmin_spec (|w - (wvl_max + wvl_min) / 2|)
        (ws.map (fun w2 => |w2 - (wvl_max + wvl_min) / 2|))).2.2 j (by simpa using hj)
      rw [show ((|w - (wvl_max + wvl_min) / 2|)
        :: ws.map (fun w2 => |w2 - (wvl_max + wvl_min) / 2|))
        = (w :: ws).map (fun w2 => |w2 - (wvl_max + wvl_min) / 2|) from rfl,
        getD_map_abs _ _ _ hlen, getD_map_abs _ _ _ hjlen] at h3
      exact h3
    · rw [main_run, selected_wvl_idx, hb]
      rfl

/-- Witness for C7: band label `sw01` with short-wave boundary table [0, 1]
(midpoint 1/2) and wavelength axis [2, 1]; the selected index is the nearest
tabulated wavelength. -/
theorem band_selector_c7_witness :
    ∃ i, selected_wvl_idx ("sw01".toList) [0, 1] [] [2, 1] = some i
      ∧ i < ([2, 1] : List ℚ).length
      ∧ (∀ j, j < ([2, 1] : List ℚ).length →
          |([2, 1] : List ℚ).getD i 0 - ((1 : ℚ) + 0) / 2|
            ≤ |([2, 1] : List ℚ).getD j 0 - ((1 : ℚ) + 0) / 2|)
      ∧ (∀ j, j < i →
          |([2, 1] : List ℚ).getD i 0 - ((1 : ℚ) + 0) / 2|
            < |([2, 1] : List ℚ).getD j 0 - ((1 : ℚ) + 0) / 2|)
      ∧ main_run ("sw01".toList) [0, 1] [] [2, 1] ["2010-01-01T00"]
          = some (["2010-01-01T00"].map (fun d => (d, i))) :=
  band_selector_c7 ("sw01".toList) [0, 1] [] [2, 1] ["2010-01-01T00"] 0 1
    (by decide) (by simp)
